import Mathlib

/-!
Verification of the durable collab persistence layer of AppFlowy-Cloud
(`libs/database/src/collab/disk_cache.rs`) and of the release-tag mapping of
the GitHub storage backend (`src/storage/mod.rs`).

The Rust code is shallowly embedded: the asynchronous store primitives become
explicit outcome functions (one outcome per attempt), the transaction handle
becomes an explicit list of issued writes, sleeps and store calls are recorded
in an event trace, and byte payloads are lists of naturals.
-/

namespace DiskCache

/-- The collab kinds of the external `collab_entity::CollabType` enum.
Only `Document` is distinguished by the code under study; the other
variants are listed for completeness. -/
inductive CollabType where
  | Document
  | Database
  | WorkspaceDatabase
  | Folder
  | DatabaseRow
  | UserAwareness
  | Unknown
deriving DecidableEq, Repr

/-- Rust `Debug` rendering of a `CollabType` variant. -/
def CollabType.debugStr : CollabType → String
  | .Document => "Document"
  | .Database => "Database"
  | .WorkspaceDatabase => "WorkspaceDatabase"
  | .Folder => "Folder"
  | .DatabaseRow => "DatabaseRow"
  | .UserAwareness => "UserAwareness"
  | .Unknown => "Unknown"

/-- Classification of `sqlx::Error` values as the retry loop observes them:
`RowNotFound`, `PoolTimedOut`, and every other (opaque) transport error,
distinguished here by a numeric code. -/
inductive StoreError where
  | RowNotFound
  | PoolTimedOut
  | other (code : Nat)
deriving DecidableEq, Repr

/-- The domain error taxonomy (`app_error::AppError`) as far as this layer
produces it. `StoreUnavailable e` models the `e.into()` conversion of a
transport error (the `From<sqlx::Error>` impl is outside this file's sources;
the spec's taxonomy names the propagated transport error `StoreUnavailable`).
`InvalidIdentifier` models the conversion of a `uuid::Error` raised by
`Uuid::parse_str`. -/
inductive AppError where
  | RecordNotFound (msg : String)
  | StoreUnavailable (e : StoreError)
  | DecodeFailed
  | InvalidIdentifier
deriving DecidableEq, Repr

/-- Struct `database_entity::dto::QueryCollab`: a read request. -/
structure QueryCollab where
  object_id : String
  collab_type : CollabType
deriving DecidableEq, Repr

/-- Rust `derive(Debug)` rendering of a `QueryCollab`, as interpolated by
`format!("... {:?}", query)`. -/
def QueryCollab.debugStr (q : QueryCollab) : String :=
  "QueryCollab \x7b object_id: \"" ++ q.object_id ++ "\", collab_type: "
    ++ q.collab_type.debugStr ++ " \x7d"

/-- An observable event of `get_collab_encoded_from_disk`: a store call
(tagged with the value of the `attempts` counter at the call) or a backoff
sleep of the given number of milliseconds. -/
inductive FetchEvent where
  | call (attempts : Nat)
  | sleepMs (ms : Nat)
deriving DecidableEq, Repr

/-- Constant `MAX_ATTEMPTS` from `get_collab_encoded_from_disk`. -/
def MAX_ATTEMPTS : Nat := 3

/-- Modelled from the spec: `encode_collab_from_bytes`
(`crate::collab::util`, not among the sources) decodes the raw bytes into
the structured collab representation; decode failure is `DecodeFailed`.
The underlying decoder is a parameter `dec`. -/
def encode_collab_from_bytes {α : Type} (dec : List Nat → Option α)
    (data : List Nat) : Except AppError α :=
  match dec data with
  | some v => Except.ok v
  | none => Except.error AppError.DecodeFailed

/-- The retry loop of `get_collab_encoded_from_disk`, entered with the
current value of the `attempts` counter.  `store n` is the outcome of
`select_blob_from_af_collab` on the call made while `attempts = n`.
Returns the result together with the trace of store calls and sleeps. -/
def fetchLoop {α : Type} (store : Nat → Except StoreError (List Nat))
    (dec : List Nat → Option α) (query : QueryCollab) (attempts : Nat) :
    Except AppError α × List FetchEvent :=
  match store attempts with
  | Except.ok data =>
      (encode_collab_from_bytes dec data, [FetchEvent.call attempts])
  | Except.error StoreError.RowNotFound =>
      (Except.error (AppError.RecordNotFound
          ("Can't find the row for query: " ++ query.debugStr)),
        [FetchEvent.call attempts])
  | Except.error e =>
      -- Increment attempts and retry if below MAX_ATTEMPTS and the error is retryable
      if h : attempts < MAX_ATTEMPTS - 1 ∧ e = StoreError.PoolTimedOut then
        let rest := fetchLoop store dec query (attempts + 1)
        (rest.1,
          FetchEvent.call attempts :: FetchEvent.sleepMs (500 * (attempts + 1))
            :: rest.2)
      else
        (Except.error (AppError.StoreUnavailable e), [FetchEvent.call attempts])
termination_by MAX_ATTEMPTS - attempts
decreasing_by omega

/-- Embedding of `CollabDiskCache::get_collab_encoded_from_disk`: the loop
starts with `attempts = 0`. -/
def get_collab_encoded_from_disk {α : Type}
    (store : Nat → Except StoreError (List Nat))
    (dec : List Nat → Option α) (query : QueryCollab) :
    Except AppError α × List FetchEvent :=
  fetchLoop store dec query 0

/-- Number of store calls recorded in a trace. -/
def countCalls : List FetchEvent → Nat
  | [] => 0
  | FetchEvent.call _ :: rest => countCalls rest + 1
  | FetchEvent.sleepMs _ :: rest => countCalls rest

/-- The trace produced by `n` consecutive retried attempts: attempt `k`
followed by the backoff sleep of `500 * (k+1)` ms, for `k < n`. -/
def backoffTrace : Nat → List FetchEvent
  | 0 => []
  | n + 1 =>
      backoffTrace n ++ [FetchEvent.call n, FetchEvent.sleepMs (500 * (n + 1))]

/-- Struct `pg_row::AFCollabRowMeta` (metadata-only view of a collab row; the
struct is outside the sources, its exact field list does not matter to the
claims). -/
structure AFCollabRowMeta where
  oid : String
  workspace_id : String
  deleted_at : Option Nat
  created_at : Nat
deriving DecidableEq, Repr

/-- Embedding of `CollabDiskCache::get_collab_meta`.  `outcome` is the result of the one
call to `select_collab_meta_from_af_collab` (a transport error, or the
optional row). -/
def get_collab_meta (outcome : Except StoreError (Option AFCollabRowMeta))
    (object_id : String) (_collab_type : CollabType) :
    Except AppError AFCollabRowMeta :=
  match outcome with
  | Except.error e => Except.error (AppError.StoreUnavailable e)
  | Except.ok none =>
      Except.error (AppError.RecordNotFound
        ("Can't find the row for object_id: " ++ object_id))
  | Except.ok (some meta) => Except.ok meta

/-- Hex-digit test used by the UUID parser model. -/
def isHexDigit (c : Char) : Bool :=
  c.isDigit || ('a' ≤ c && c ≤ 'f') || ('A' ≤ c && c ≤ 'F')

/-- Model of `uuid::Uuid::parse_str` (external `uuid` crate): accepts the
simple (32 hex digits) and hyphenated (8-4-4-4-12) renderings of a UUID,
returning the 32 hex digits; every other string is rejected. -/
def uuidParse (s : String) : Option (List Char) :=
  let cs := s.toList
  if cs.length = 32 && cs.all isHexDigit then
    some cs
  else if cs.length = 36
      && (List.range 36).all (fun i =>
            if i = 8 || i = 13 || i = 18 || i = 23 then cs.getD i ' ' = '-'
            else isHexDigit (cs.getD i ' ')) then
    some (cs.filter (fun c => c ≠ '-'))
  else
    none

/-- Struct `database_entity::dto::CollabEmbeddings` as the upsert consumes it:
a token cost and opaque index parameters. -/
structure CollabEmbeddings where
  tokens_consumed : Nat
  params : List Nat
deriving DecidableEq, Repr

/-- Struct `database_entity::dto::CollabParams` as the upsert consumes it. -/
structure CollabParams where
  object_id : String
  collab_type : CollabType
  encoded_collab_v1 : List Nat
  embeddings : Option CollabEmbeddings
deriving DecidableEq, Repr

/-- A write issued into the caller's transaction: the collab blob row write
or the embedding index write. -/
inductive TxWrite where
  | blobWrite (uid : Int) (workspace_id : String) (object_id : String)
  | embedWrite (workspace_id : List Char) (tokens_consumed : Nat)
deriving DecidableEq, Repr

/-- Modelled from the spec: `insert_into_af_collab` (the Row Store
Accessor's `write_row`, outside the sources) inserts or overwrites the
collab row inside the given atomic unit and does not commit; it fails only
on transport errors, in which case nothing is written.  `outcome` is the
transport result of the statement. -/
def insert_into_af_collab (outcome : Except StoreError Unit)
    (tx : List TxWrite) (uid : Int) (workspace_id : String)
    (params : CollabParams) : Except StoreError (List TxWrite) :=
  match outcome with
  | Except.ok _ =>
      Except.ok (tx ++ [TxWrite.blobWrite uid workspace_id params.object_id])
  | Except.error e => Except.error e

/-- Modelled from the spec: `upsert_collab_embeddings` (the Embedding Index
Writer, outside the sources) writes or replaces the index entry inside the
supplied atomic unit; it fails only on transport errors and never partially
writes.  `outcome` is the transport result of the statement. -/
def upsert_collab_embeddings (outcome : Except StoreError Unit)
    (tx : List TxWrite) (workspace_id : List Char) (tokens : Nat) :
    Except StoreError (List TxWrite) :=
  match outcome with
  | Except.ok _ => Except.ok (tx ++ [TxWrite.embedWrite workspace_id tokens])
  | Except.error e => Except.error e

/-- Embedding of `CollabDiskCache::upsert_collab_with_transaction`.  The transaction is
the explicit list `tx` of writes issued so far; the result is the returned
value, the transaction after the call, and the informational log lines
emitted (in order).  `rowOutcome` and `embedOutcome` are the transport
results of the two store statements. -/
def upsert_collab_with_transaction (rowOutcome embedOutcome : Except StoreError Unit)
    (workspace_id : String) (uid : Int) (params : CollabParams)
    (tx : List TxWrite) :
    Except AppError Unit × List TxWrite × List String :=
  match insert_into_af_collab rowOutcome tx uid workspace_id params with
  | Except.error e => (Except.error (AppError.StoreUnavailable e), tx, [])
  | Except.ok tx1 =>
    match params.embeddings with
    | some em =>
        let log1 := "saving collab " ++ params.object_id ++ " embeddings (cost: "
          ++ toString em.tokens_consumed ++ " tokens)"
        match uuidParse workspace_id with
        | none => (Except.error AppError.InvalidIdentifier, tx1, [log1])
        | some wid =>
          match upsert_collab_embeddings embedOutcome tx1 wid em.tokens_consumed with
          | Except.error e => (Except.error (AppError.StoreUnavailable e), tx1, [log1])
          | Except.ok tx2 => (Except.ok (), tx2, [log1])
    | none =>
      if params.collab_type = CollabType.Document then
        (Except.ok (), tx1, ["no embeddings to save for collab " ++ params.object_id])
      else
        (Except.ok (), tx1, [])

/-- Enum `database_entity::dto::QueryCollabResult`: the per-key outcome of a
batch lookup — a payload or a failure value, never a raised error. -/
inductive QueryCollabResult where
  | Success (encode_collab_v1 : List Nat)
  | Failed (error : StoreError)
deriving DecidableEq, Repr

/-- Modelled from the spec: `batch_select_collab_blob` (outside the
sources) issues one single-attempt lookup per query and returns one entry
per input query; a failure on one query produces a failure entry for that
key only, never an overall failure, and no retry is applied. -/
def batch_select_collab_blob
    (lookup : QueryCollab → Except StoreError (List Nat))
    (queries : List QueryCollab) : List (String × QueryCollabResult) :=
  queries.map fun q =>
    (q.object_id,
      match lookup q with
      | Except.ok data => QueryCollabResult.Success data
      | Except.error e => QueryCollabResult.Failed e)

/-- Embedding of `CollabDiskCache::batch_get_collab`: delegates to the batch primitive. -/
def batch_get_collab (lookup : QueryCollab → Except StoreError (List Nat))
    (queries : List QueryCollab) : List (String × QueryCollabResult) :=
  batch_select_collab_blob lookup queries

/-- The writes the upsert adds to the caller's transaction. -/
def upsertIssued (rowOutcome embedOutcome : Except StoreError Unit)
    (workspace_id : String) (uid : Int) (params : CollabParams)
    (tx : List TxWrite) : List TxWrite :=
  (upsert_collab_with_transaction rowOutcome embedOutcome workspace_id uid
      params tx).2.1.drop tx.length

/-- One row of the `af_collab` table as `delete_collab` touches it:
primary key `oid`, the payload columns, and the soft-delete timestamp. -/
structure AFCollabRow where
  oid : String
  workspace_id : String
  blob : List Nat
  partition_key : Int
  deleted_at : Option Nat
deriving DecidableEq, Repr

/-- The semantics of the SQL statement run by `delete_collab`:
`UPDATE af_collab SET deleted_at = $2 WHERE oid = $1` — every row whose
`oid` matches gets `deleted_at := now`, every other row and every other
column is untouched, and no row is inserted or removed. -/
def updateDeletedAt (table : List AFCollabRow) (object_id : String)
    (now : Nat) : List AFCollabRow :=
  table.map fun r =>
    if r.oid = object_id then { r with deleted_at := some now } else r

/-- Embedding of `CollabDiskCache::delete_collab`: runs the UPDATE and returns `Ok(())`;
`outcome` is the transport result of executing the statement (on a
transport error nothing is changed and the error propagates). -/
def delete_collab (outcome : Except StoreError Unit)
    (table : List AFCollabRow) (object_id : String) (now : Nat) :
    Except AppError Unit × List AFCollabRow :=
  match outcome with
  | Except.error e => (Except.error (AppError.StoreUnavailable e), table)
  | Except.ok _ => (Except.ok (), updateDeletedAt table object_id now)

end DiskCache

namespace Storage

/-- Rust `str::replace` with the single-character pattern `'/'` and the
single-character replacement `"_"` is a character-by-character map; paths
are modelled as their character lists. -/
def replaceChar (pat rep : Char) (s : List Char) : List Char :=
  s.map fun c => if c = pat then rep else c

/-- The GitHub release tag computed by `GitHubStorage` for a file path:
`format!("file_{}", file_path.replace('/', "_"))`.  The same expression is
used by `upload_file`, `download_file` and `delete_file`. -/
def tag_name (file_path : List Char) : List Char :=
  "file_".toList ++ replaceChar '/' '_' file_path

/-- Embedding of `GitHubStorage::upload_file` as far as release bookkeeping goes:
creates a release tagged `tag_name file_path` holding the content. -/
def upload_file (releases : List (List Char × List Nat))
    (file_path : List Char) (content : List Nat) :
    List (List Char × List Nat) :=
  (tag_name file_path, content) :: releases

/-- Embedding of `GitHubStorage::download_file`: fetches the release by
`tag_name file_path` and returns its asset. -/
def download_file (releases : List (List Char × List Nat))
    (file_path : List Char) : Option (List Nat) :=
  (releases.find? fun r => r.1 = tag_name file_path).map (fun r => r.2)

/-- Embedding of `GitHubStorage::delete_file`: deletes the release tagged
`tag_name file_path`. -/
def delete_file (releases : List (List Char × List Nat))
    (file_path : List Char) : List (List Char × List Nat) :=
  releases.filter fun r => r.1 ≠ tag_name file_path

end Storage

namespace DiskCache

lemma fetchLoop_ok {α : Type} (store : Nat → Except StoreError (List Nat))
    (dec : List Nat → Option α) (q : QueryCollab) (a : Nat) (data : List Nat)
    (h : store a = Except.ok data) :
    fetchLoop store dec q a = (encode_collab_from_bytes dec data, [FetchEvent.call a]) := by
  rw [fetchLoop, h]

lemma fetchLoop_notfound {α : Type} (store : Nat → Except StoreError (List Nat))
    (dec : List Nat → Option α) (q : QueryCollab) (a : Nat)
    (h : store a = Except.error StoreError.RowNotFound) :
    fetchLoop store dec q a =
      (Except.error (AppError.RecordNotFound
          ("Can't find the row for query: " ++ q.debugStr)),
        [FetchEvent.call a]) := by
  rw [fetchLoop, h]

lemma fetchLoop_retry {α : Type} (store : Nat → Except StoreError (List Nat))
    (dec : List Nat → Option α) (q : QueryCollab) (a : Nat)
    (ha : a < MAX_ATTEMPTS - 1)
    (h : store a = Except.error StoreError.PoolTimedOut) :
    fetchLoop store dec q a =
      ((fetchLoop store dec q (a + 1)).1,
        FetchEvent.call a :: FetchEvent.sleepMs (500 * (a + 1))
          :: (fetchLoop store dec q (a + 1)).2) := by
  rw [fetchLoop, h]
  exact dif_pos ⟨ha, rfl⟩

lemma fetchLoop_giveup {α : Type} (store : Nat → Except StoreError (List Nat))
    (dec : List Nat → Option α) (q : QueryCollab) (a : Nat) (e : StoreError)
    (hne : e ≠ StoreError.RowNotFound)
    (hguard : ¬(a < MAX_ATTEMPTS - 1 ∧ e = StoreError.PoolTimedOut))
    (h : store a = Except.error e) :
    fetchLoop store dec q a =
      (Except.error (AppError.StoreUnavailable e), [FetchEvent.call a]) := by
  rcases e with _ | _ | c
  · exact absurd rfl hne
  · rw [fetchLoop, h]; exact dif_neg hguard
  · rw [fetchLoop, h]; exact dif_neg hguard

end DiskCache

namespace DiskCache

lemma fetchLoop_calls_of_two_le {α : Type}
    (store : Nat → Except StoreError (List Nat)) (dec : List Nat → Option α)
    (q : QueryCollab) (a : Nat) (ha : 2 ≤ a) :
    countCalls (fetchLoop store dec q a).2 = 1 := by
  rcases h : store a with e | data
  · rcases e with _ | _ | c
    · rw [fetchLoop_notfound store dec q a h]; rfl
    · rw [fetchLoop_giveup store dec q a _ (by simp) (by simp [MAX_ATTEMPTS]; omega) h]; rfl
    · rw [fetchLoop_giveup store dec q a _ (by simp) (by simp) h]; rfl
  · rw [fetchLoop_ok store dec q a data h]; rfl

lemma fetchLoop_calls_at_one {α : Type}
    (store : Nat → Except StoreError (List Nat)) (dec : List Nat → Option α)
    (q : QueryCollab) :
    countCalls (fetchLoop store dec q 1).2 ≤ 2 := by
  rcases h : store 1 with e | data
  · rcases e with _ | _ | c
    · rw [fetchLoop_notfound store dec q 1 h]; simp [countCalls]
    · rw [fetchLoop_retry store dec q 1 (by simp [MAX_ATTEMPTS]) h]
      simp only [countCalls]
      have := fetchLoop_calls_of_two_le store dec q (1 + 1) (by omega)
      omega
    · rw [fetchLoop_giveup store dec q 1 _ (by simp) (by simp) h]; simp [countCalls]
  · rw [fetchLoop_ok store dec q 1 data h]; simp [countCalls]

lemma fetchLoop_calls_at_zero {α : Type}
    (store : Nat → Except StoreError (List Nat)) (dec : List Nat → Option α)
    (q : QueryCollab) :
    countCalls (fetchLoop store dec q 0).2 ≤ 3 := by
  rcases h : store 0 with e | data
  · rcases e with _ | _ | c
    · rw [fetchLoop_notfound store dec q 0 h]; simp [countCalls]
    · rw [fetchLoop_retry store dec q 0 (by simp [MAX_ATTEMPTS]) h]
      simp only [countCalls]
      have : countCalls (fetchLoop store dec q (0 + 1)).2 ≤ 2 :=
        fetchLoop_calls_at_one store dec q
      omega
    · rw [fetchLoop_giveup store dec q 0 _ (by simp) (by simp) h]; simp [countCalls]
  · rw [fetchLoop_ok store dec q 0 data h]; simp [countCalls]

lemma fetchLoop_no_sleep_of_two_le {α : Type}
    (store : Nat → Except StoreError (List Nat)) (dec : List Nat → Option α)
    (q : QueryCollab) (a : Nat) (ha : 2 ≤ a) (m : Nat) :
    FetchEvent.sleepMs m ∉ (fetchLoop store dec q a).2 := by
  rcases h : store a with e | data
  · rcases e with _ | _ | c
    · rw [fetchLoop_notfound store dec q a h]; simp
    · rw [fetchLoop_giveup store dec q a _ (by simp)
        (by simp [MAX_ATTEMPTS]; omega) h]; simp
    · rw [fetchLoop_giveup store dec q a _ (by simp) (by simp) h]; simp
  · rw [fetchLoop_ok store dec q a data h]; simp

lemma fetchLoop_sleep_at_one {α : Type}
    (store : Nat → Except StoreError (List Nat)) (dec : List Nat → Option α)
    (q : QueryCollab) (m : Nat)
    (hm : FetchEvent.sleepMs m ∈ (fetchLoop store dec q 1).2) :
    m = 1000 ∧ store 1 = Except.error StoreError.PoolTimedOut := by
  rcases h : store 1 with e | data
  · rcases e with _ | _ | c
    · rw [fetchLoop_notfound store dec q 1 h] at hm; simp at hm
    · refine ⟨?_, rfl⟩
      rw [fetchLoop_retry store dec q 1 (by simp [MAX_ATTEMPTS]) h] at hm
      simp at hm
      rcases hm with hm | hm
      · omega
      · exact absurd hm (fetchLoop_no_sleep_of_two_le store dec q (1 + 1)
          (by omega) m)
    · rw [fetchLoop_giveup store dec q 1 _ (by simp) (by simp) h] at hm
      simp at hm
  · rw [fetchLoop_ok store dec q 1 data h] at hm; simp at hm

lemma fetchLoop_sleep_at_zero {α : Type}
    (store : Nat → Except StoreError (List Nat)) (dec : List Nat → Option α)
    (q : QueryCollab) (m : Nat)
    (hm : FetchEvent.sleepMs m ∈ (fetchLoop store dec q 0).2) :
    (m = 500 ∧ store 0 = Except.error StoreError.PoolTimedOut)
    ∨ (m = 1000 ∧ store 0 = Except.error StoreError.PoolTimedOut
        ∧ store 1 = Except.error StoreError.PoolTimedOut) := by
  rcases h : store 0 with e | data
  · rcases e with _ | _ | c
    · rw [fetchLoop_notfound store dec q 0 h] at hm; simp at hm
    · rw [fetchLoop_retry store dec q 0 (by simp [MAX_ATTEMPTS]) h] at hm
      simp at hm
      rcases hm with hm | hm
      · exact Or.inl ⟨by omega, rfl⟩
      · have h1 : FetchEvent.sleepMs m ∈ (fetchLoop store dec q 1).2 := by
          simpa using hm
        rcases fetchLoop_sleep_at_one store dec q m h1 with ⟨hm1000, hs1⟩
        exact Or.inr ⟨hm1000, rfl, hs1⟩
    · rw [fetchLoop_giveup store dec q 0 _ (by simp) (by simp) h] at hm
      simp at hm
  · rw [fetchLoop_ok store dec q 0 data h] at hm; simp at hm

/-- C1: the fetch makes at most `MAX_ATTEMPTS = 3` store calls; it retries
only on the transient pool-exhaustion kind (every backoff sleep in the
trace is due to a pool-exhausted failure), sleeping 500 ms before the
second attempt and 1000 ms before the third; when all three attempts fail
with that kind it fails with `StoreUnavailable` after exactly three calls,
never a fourth; any other transport error gives up at once. -/
theorem get_collab_retry_policy {α : Type}
    (store : Nat → Except StoreError (List Nat)) (dec : List Nat → Option α)
    (q : QueryCollab) :
    countCalls (get_collab_encoded_from_disk store dec q).2 ≤ MAX_ATTEMPTS
    ∧ (store 0 = Except.error StoreError.PoolTimedOut →
        store 1 = Except.error StoreError.PoolTimedOut →
        store 2 = Except.error StoreError.PoolTimedOut →
        get_collab_encoded_from_disk store dec q =
          (Except.error (AppError.StoreUnavailable StoreError.PoolTimedOut),
            [FetchEvent.call 0, FetchEvent.sleepMs 500, FetchEvent.call 1,
              FetchEvent.sleepMs 1000, FetchEvent.call 2]))
    ∧ (∀ e : StoreError, e ≠ StoreError.PoolTimedOut →
        e ≠ StoreError.RowNotFound → store 0 = Except.error e →
        get_collab_encoded_from_disk store dec q =
          (Except.error (AppError.StoreUnavailable e), [FetchEvent.call 0]))
    ∧ (∀ m : Nat,
        FetchEvent.sleepMs m ∈ (get_collab_encoded_from_disk store dec q).2 →
        (m = 500 ∧ store 0 = Except.error StoreError.PoolTimedOut)
        ∨ (m = 1000 ∧ store 0 = Except.error StoreError.PoolTimedOut
            ∧ store 1 = Except.error StoreError.PoolTimedOut)) := by
  refine ⟨fetchLoop_calls_at_zero store dec q, ?_, ?_,
    fun m hm => fetchLoop_sleep_at_zero store dec q m hm⟩
  · intro h0 h1 h2
    rw [get_collab_encoded_from_disk,
      fetchLoop_retry store dec q 0 (by simp [MAX_ATTEMPTS]) h0,
      fetchLoop_retry store dec q 1 (by simp [MAX_ATTEMPTS]) h1,
      fetchLoop_giveup store dec q 2 _ (by simp) (by simp [MAX_ATTEMPTS]) h2]
  · intro e hpool hnf h0
    rw [get_collab_encoded_from_disk,
      fetchLoop_giveup store dec q 0 e hnf (fun hc => hpool hc.2) h0]

end DiskCache

namespace DiskCache

/-- C1 witness. -/
theorem get_collab_retry_policy_witness :
    get_collab_encoded_from_disk (fun _ => Except.error StoreError.PoolTimedOut)
        (fun _ => (none : Option Nat)) ⟨"o1", CollabType.Document⟩ =
      (Except.error (AppError.StoreUnavailable StoreError.PoolTimedOut),
        [FetchEvent.call 0, FetchEvent.sleepMs 500, FetchEvent.call 1,
          FetchEvent.sleepMs 1000, FetchEvent.call 2])
    ∧ get_collab_encoded_from_disk (fun _ => Except.error (StoreError.other 7))
        (fun _ => (none : Option Nat)) ⟨"o1", CollabType.Document⟩ =
      (Except.error (AppError.StoreUnavailable (StoreError.other 7)),
        [FetchEvent.call 0]) :=
  ⟨(get_collab_retry_policy _ _ _).2.1 rfl rfl rfl,
    (get_collab_retry_policy _ _ _).2.2.1 (StoreError.other 7) (by decide)
      (by decide) rfl⟩

/-- C2: RowNotFound at the attempt reached fails immediately. -/
theorem get_collab_not_found_immediate {α : Type}
    (store : Nat → Except StoreError (List Nat)) (dec : List Nat → Option α)
    (q : QueryCollab) (n : Nat) (hn : n ≤ 2)
    (hp : ∀ m, m < n → store m = Except.error StoreError.PoolTimedOut)
    (hrow : store n = Except.error StoreError.RowNotFound) :
    get_collab_encoded_from_disk store dec q =
      (Except.error (AppError.RecordNotFound
          ("Can't find the row for query: " ++ q.debugStr)),
        backoffTrace n ++ [FetchEvent.call n]) := by
  interval_cases n
  · rw [get_collab_encoded_from_disk, fetchLoop_notfound store dec q 0 hrow]
    simp [backoffTrace]
  · rw [get_collab_encoded_from_disk,
      fetchLoop_retry store dec q 0 (by simp [MAX_ATTEMPTS]) (hp 0 (by omega))]
    norm_num
    rw [fetchLoop_notfound store dec q 1 hrow]
    simp [backoffTrace]
  · rw [get_collab_encoded_from_disk,
      fetchLoop_retry store dec q 0 (by simp [MAX_ATTEMPTS]) (hp 0 (by omega))]
    norm_num
    rw [fetchLoop_retry store dec q 1 (by simp [MAX_ATTEMPTS]) (hp 1 (by omega))]
    norm_num
    rw [fetchLoop_notfound store dec q 2 hrow]
    simp [backoffTrace]

/-- C2 witness. -/
theorem get_collab_not_found_immediate_witness :
    get_collab_encoded_from_disk
        (fun k => if k = 0 then Except.error StoreError.PoolTimedOut
          else Except.error StoreError.RowNotFound)
        (fun _ => (none : Option Nat)) ⟨"o2", CollabType.Folder⟩ =
      (Except.error (AppError.RecordNotFound
          ("Can't find the row for query: "
            ++ QueryCollab.debugStr ⟨"o2", CollabType.Folder⟩)),
        backoffTrace 1 ++ [FetchEvent.call 1]) :=
  get_collab_not_found_immediate _ _ _ 1 (by decide)
    (by intro m hm; interval_cases m; rfl) rfl

/-- C8: a successful fetch is decoded directly, with no further attempt. -/
theorem get_collab_decode_no_retry {α : Type}
    (store : Nat → Except StoreError (List Nat)) (dec : List Nat → Option α)
    (q : QueryCollab) (n : Nat) (data : List Nat) (hn : n ≤ 2)
    (hp : ∀ m, m < n → store m = Except.error StoreError.PoolTimedOut)
    (hok : store n = Except.ok data) :
    get_collab_encoded_from_disk store dec q =
      (encode_collab_from_bytes dec data, backoffTrace n ++ [FetchEvent.call n])
    ∧ (dec data = none →
        (get_collab_encoded_from_disk store dec q).1 =
          Except.error AppError.DecodeFailed) := by
  have hmain : get_collab_encoded_from_disk store dec q =
      (encode_collab_from_bytes dec data,
        backoffTrace n ++ [FetchEvent.call n]) := by
    interval_cases n
    · rw [get_collab_encoded_from_disk, fetchLoop_ok store dec q 0 data hok]
      simp [backoffTrace]
    · rw [get_collab_encoded_from_disk,
        fetchLoop_retry store dec q 0 (by simp [MAX_ATTEMPTS]) (hp 0 (by omega))]
      norm_num
      rw [fetchLoop_ok store dec q 1 data hok]
      simp [backoffTrace]
    · rw [get_collab_encoded_from_disk,
        fetchLoop_retry store dec q 0 (by simp [MAX_ATTEMPTS]) (hp 0 (by omega))]
      norm_num
      rw [fetchLoop_retry store dec q 1 (by simp [MAX_ATTEMPTS]) (hp 1 (by omega))]
      norm_num
      rw [fetchLoop_ok store dec q 2 data hok]
      simp [backoffTrace]
  refine ⟨hmain, fun hdec => ?_⟩
  rw [hmain]
  simp [encode_collab_from_bytes, hdec]

/-- C8 witness. -/
theorem get_collab_decode_no_retry_witness :
    get_collab_encoded_from_disk (fun _ => Except.ok [9, 9])
        (fun _ => (none : Option Nat)) ⟨"o3", CollabType.Document⟩ =
      (encode_collab_from_bytes (fun _ => (none : Option Nat)) [9, 9],
        backoffTrace 0 ++ [FetchEvent.call 0])
    ∧ ((fun _ => (none : Option Nat)) [9, 9] = none →
        (get_collab_encoded_from_disk (fun _ => Except.ok [9, 9])
            (fun _ => (none : Option Nat)) ⟨"o3", CollabType.Document⟩).1 =
          Except.error AppError.DecodeFailed) :=
  get_collab_decode_no_retry _ _ _ 0 [9, 9] (by decide)
    (by intro m hm; omega) rfl

end DiskCache

namespace DiskCache

/-- C7: metadata lookup error handling. -/
theorem get_collab_meta_spec (object_id : String) (ct : CollabType) :
    get_collab_meta (Except.ok none) object_id ct =
      Except.error (AppError.RecordNotFound
        ("Can't find the row for object_id: " ++ object_id))
    ∧ (∀ meta : AFCollabRowMeta,
        get_collab_meta (Except.ok (some meta)) object_id ct = Except.ok meta) :=
  ⟨rfl, fun _ => rfl⟩

/-- C5: one entry per input query; per-key outcome. -/
theorem batch_get_collab_per_key
    (lookup : QueryCollab → Except StoreError (List Nat))
    (queries : List QueryCollab) :
    (batch_get_collab lookup queries).length = queries.length
    ∧ (∀ i, (h : i < queries.length) → ∀ data : List Nat,
        lookup queries[i] = Except.ok data →
        (batch_get_collab lookup queries)[i]? =
          some ((queries[i]).object_id, QueryCollabResult.Success data))
    ∧ (∀ i, (h : i < queries.length) → ∀ e : StoreError,
        lookup queries[i] = Except.error e →
        (batch_get_collab lookup queries)[i]? =
          some ((queries[i]).object_id, QueryCollabResult.Failed e)) := by
  refine ⟨by simp [batch_get_collab, batch_select_collab_blob], ?_, ?_⟩
  · intro i h data hl
    simp [batch_get_collab, batch_select_collab_blob, List.getElem?_map,
      List.getElem?_eq_getElem h, hl]
  · intro i h e hl
    simp [batch_get_collab, batch_select_collab_blob, List.getElem?_map,
      List.getElem?_eq_getElem h, hl]

/-- C5 witness. -/
theorem batch_get_collab_per_key_witness :
    (batch_get_collab
        (fun q => if q.object_id = "a" then Except.ok [1]
          else Except.error StoreError.RowNotFound)
        [⟨"a", CollabType.Document⟩, ⟨"b", CollabType.Folder⟩]).length = 2
    ∧ (batch_get_collab
        (fun q => if q.object_id = "a" then Except.ok [1]
          else Except.error StoreError.RowNotFound)
        [⟨"a", CollabType.Document⟩, ⟨"b", CollabType.Folder⟩])[0]? =
      some ("a", QueryCollabResult.Success [1])
    ∧ (batch_get_collab
        (fun q => if q.object_id = "a" then Except.ok [1]
          else Except.error StoreError.RowNotFound)
        [⟨"a", CollabType.Document⟩, ⟨"b", CollabType.Folder⟩])[1]? =
      some ("b", QueryCollabResult.Failed StoreError.RowNotFound) :=
  ⟨(batch_get_collab_per_key _ _).1,
    (batch_get_collab_per_key _ _).2.1 0 (by decide) [1] rfl,
    (batch_get_collab_per_key _ _).2.2 1 (by decide) StoreError.RowNotFound rfl⟩

/-- C6: soft delete only touches deleted_at of matching rows. -/
theorem delete_collab_soft_delete (table : List AFCollabRow)
    (object_id : String) (now : Nat) :
    (delete_collab (Except.ok ()) table object_id now).1 = Except.ok ()
    ∧ ((delete_collab (Except.ok ()) table object_id now).2).length = table.length
    ∧ (∀ i, (h : i < table.length) → ∃ r' : AFCollabRow,
        ((delete_collab (Except.ok ()) table object_id now).2)[i]? = some r'
        ∧ r'.oid = (table[i]).oid
        ∧ r'.workspace_id = (table[i]).workspace_id
        ∧ r'.blob = (table[i]).blob
        ∧ r'.partition_key = (table[i]).partition_key
        ∧ ((table[i]).oid = object_id → r'.deleted_at = some now)
        ∧ ((table[i]).oid ≠ object_id → r'.deleted_at = (table[i]).deleted_at)) := by
  refine ⟨rfl, by simp [delete_collab, updateDeletedAt], ?_⟩
  intro i h
  refine ⟨if (table[i]).oid = object_id
    then { table[i] with deleted_at := some now } else table[i], ?_⟩
  constructor
  · simp [delete_collab, updateDeletedAt, List.getElem?_map,
      List.getElem?_eq_getElem h]
  · by_cases hoid : (table[i]).oid = object_id <;>
      simp [hoid]

/-- C6 witness. -/
theorem delete_collab_soft_delete_witness :
    (delete_collab (Except.ok ())
        [⟨"x", "w", [1], 0, none⟩, ⟨"y", "w", [2], 0, some 3⟩] "x" 9).1 =
      Except.ok ()
    ∧ ((delete_collab (Except.ok ())
        [⟨"x", "w", [1], 0, none⟩, ⟨"y", "w", [2], 0, some 3⟩] "x" 9).2).length = 2
    ∧ (∃ r' : AFCollabRow,
        ((delete_collab (Except.ok ())
            [⟨"x", "w", [1], 0, none⟩, ⟨"y", "w", [2], 0, some 3⟩] "x" 9).2)[0]? =
          some r'
        ∧ r'.oid = "x" ∧ r'.workspace_id = "w" ∧ r'.blob = [1]
        ∧ r'.partition_key = 0
        ∧ ("x" = "x" → r'.deleted_at = some 9)
        ∧ ("x" ≠ "x" → r'.deleted_at = none)) :=
  ⟨(delete_collab_soft_delete _ _ _).1,
    (delete_collab_soft_delete _ _ _).2.1,
    (delete_collab_soft_delete
      [⟨"x", "w", [1], 0, none⟩, ⟨"y", "w", [2], 0, some 3⟩] "x" 9).2.2 0
      (by decide)⟩

end DiskCache

namespace DiskCache

/-- C9: Document with no embeddings succeeds, writes no index entry. -/
theorem upsert_document_no_embeddings_ok (embedOutcome : Except StoreError Unit)
    (workspace_id : String) (uid : Int) (params : CollabParams)
    (tx : List TxWrite) (hdoc : params.collab_type = CollabType.Document)
    (hemb : params.embeddings = none) :
    upsert_collab_with_transaction (Except.ok ()) embedOutcome workspace_id uid
        params tx =
      (Except.ok (), tx ++ [TxWrite.blobWrite uid workspace_id params.object_id],
        ["no embeddings to save for collab " ++ params.object_id]) := by
  simp [upsert_collab_with_transaction, insert_into_af_collab, hemb, hdoc]

/-- C9 witness. -/
theorem upsert_document_no_embeddings_ok_witness :
    (⟨"obj9", CollabType.Document, [1], none⟩ : CollabParams).collab_type =
      CollabType.Document
    ∧ (⟨"obj9", CollabType.Document, [1], none⟩ : CollabParams).embeddings = none
    ∧ upsert_collab_with_transaction (Except.ok ()) (Except.ok ()) "w9" 9
        ⟨"obj9", CollabType.Document, [1], none⟩ [] =
      (Except.ok (), [TxWrite.blobWrite 9 "w9" "obj9"],
        ["no embeddings to save for collab obj9"]) :=
  ⟨rfl, rfl,
    upsert_document_no_embeddings_ok (Except.ok ()) "w9" 9
      ⟨"obj9", CollabType.Document, [1], none⟩ [] rfl rfl⟩

/-- C3 counterexample: with embeddings present and a malformed workspace
id, the call fails with InvalidIdentifier but a write (the blob write) has
already been issued into the unit of work. -/
theorem upsert_invalid_workspace_counterexample :
    (upsert_collab_with_transaction (Except.ok ()) (Except.ok ()) "not-a-uuid" 5
        ⟨"obj3", CollabType.Document, [1], some ⟨7, [2]⟩⟩ []).1 =
      Except.error AppError.InvalidIdentifier
    ∧ (upsert_collab_with_transaction (Except.ok ()) (Except.ok ()) "not-a-uuid" 5
        ⟨"obj3", CollabType.Document, [1], some ⟨7, [2]⟩⟩ []).2.1 =
      [TxWrite.blobWrite 5 "not-a-uuid" "obj3"] := by
  constructor <;> rfl

/-- C3 amended: the parse failure surfaces as InvalidIdentifier, with
exactly the blob write already issued (the parse sits after the blob
write; discarding it is the caller's rollback). -/
theorem upsert_invalid_workspace_after_blob_write
    (embedOutcome : Except StoreError Unit) (workspace_id : String)
    (uid : Int) (params : CollabParams) (em : CollabEmbeddings)
    (tx : List TxWrite) (hem : params.embeddings = some em)
    (hws : uuidParse workspace_id = none) :
    upsert_collab_with_transaction (Except.ok ()) embedOutcome workspace_id uid
        params tx =
      (Except.error AppError.InvalidIdentifier,
        tx ++ [TxWrite.blobWrite uid workspace_id params.object_id],
        ["saving collab " ++ params.object_id ++ " embeddings (cost: "
          ++ toString em.tokens_consumed ++ " tokens)"]) := by
  simp [upsert_collab_with_transaction, insert_into_af_collab, hem, hws]

/-- C3 amended witness. -/
theorem upsert_invalid_workspace_after_blob_write_witness :
    (⟨"obj3b", CollabType.Folder, [1], some ⟨4, []⟩⟩ : CollabParams).embeddings =
      some ⟨4, []⟩
    ∧ uuidParse "not-a-uuid" = none
    ∧ upsert_collab_with_transaction (Except.ok ()) (Except.ok ()) "not-a-uuid" 5
        ⟨"obj3b", CollabType.Folder, [1], some ⟨4, []⟩⟩ [] =
      (Except.error AppError.InvalidIdentifier,
        [TxWrite.blobWrite 5 "not-a-uuid" "obj3b"],
        ["saving collab obj3b embeddings (cost: 4 tokens)"]) :=
  ⟨rfl, rfl,
    upsert_invalid_workspace_after_blob_write (Except.ok ()) "not-a-uuid" 5
      ⟨"obj3b", CollabType.Folder, [1], some ⟨4, []⟩⟩ ⟨4, []⟩ [] rfl rfl⟩

/-- C4 counterexample: embeddings are present, yet no embedding index
write is issued (the workspace id fails to parse), refuting the
"if and only if" as stated. -/
theorem upsert_embed_iff_counterexample :
    (⟨"obj4", CollabType.Folder, [1], some ⟨3, [2]⟩⟩ : CollabParams).embeddings.isSome =
      true
    ∧ (upsert_collab_with_transaction (Except.ok ()) (Except.ok ()) "bad-uuid" 6
        ⟨"obj4", CollabType.Folder, [1], some ⟨3, [2]⟩⟩ []).2.1 =
      [TxWrite.blobWrite 6 "bad-uuid" "obj4"] := by
  constructor <;> rfl

/-- C4 amended: the embedding write is never issued without the blob write
issued first in the same transaction, and on a successful call it is
issued exactly when embeddings are present. -/
theorem upsert_embed_write_shape (rowOutcome embedOutcome : Except StoreError Unit)
    (workspace_id : String) (uid : Int) (params : CollabParams)
    (tx : List TxWrite) :
    (upsertIssued rowOutcome embedOutcome workspace_id uid params tx = []
      ∨ upsertIssued rowOutcome embedOutcome workspace_id uid params tx =
          [TxWrite.blobWrite uid workspace_id params.object_id]
      ∨ (∃ wid em, params.embeddings = some em
          ∧ uuidParse workspace_id = some wid
          ∧ upsertIssued rowOutcome embedOutcome workspace_id uid params tx =
              [TxWrite.blobWrite uid workspace_id params.object_id,
                TxWrite.embedWrite wid em.tokens_consumed]))
    ∧ (params.embeddings = none → ∀ wid t,
        TxWrite.embedWrite wid t ∉
          upsertIssued rowOutcome embedOutcome workspace_id uid params tx)
    ∧ ((upsert_collab_with_transaction rowOutcome embedOutcome workspace_id uid
          params tx).1 = Except.ok () →
        ((∃ wid t, TxWrite.embedWrite wid t ∈
            upsertIssued rowOutcome embedOutcome workspace_id uid params tx)
          ↔ params.embeddings.isSome)) := by
  rcases rowOutcome with e | u
  · refine ⟨Or.inl ?_, fun _ _ _ => ?_, fun hok => ?_⟩
    · simp [upsertIssued, upsert_collab_with_transaction, insert_into_af_collab,
        List.drop_length]
    · simp [upsertIssued, upsert_collab_with_transaction, insert_into_af_collab,
        List.drop_length]
    · simp [upsert_collab_with_transaction, insert_into_af_collab] at hok
  · rcases hpe : params.embeddings with _ | em
    · have hiss : upsertIssued (Except.ok u) embedOutcome workspace_id uid params tx =
          [TxWrite.blobWrite uid workspace_id params.object_id] := by
        by_cases hd : params.collab_type = CollabType.Document <;>
          simp [upsertIssued, upsert_collab_with_transaction,
            insert_into_af_collab, hpe, hd, List.drop_left]
      refine ⟨Or.inr (Or.inl hiss), fun _ wid t => ?_, fun _ => ?_⟩
      · rw [hiss]; simp
      · rw [hiss]; simp [hpe]
    · rcases hw : uuidParse workspace_id with _ | wid
      · have hiss : upsertIssued (Except.ok u) embedOutcome workspace_id uid params tx =
            [TxWrite.blobWrite uid workspace_id params.object_id] := by
          simp [upsertIssued, upsert_collab_with_transaction,
            insert_into_af_collab, hpe, hw, List.drop_left]
        refine ⟨Or.inr (Or.inl hiss), fun hnone => Option.noConfusion hnone,
          fun hok => ?_⟩
        simp [upsert_collab_with_transaction, insert_into_af_collab, hpe, hw]
          at hok
      · rcases embedOutcome with e2 | u2
        · have hiss : upsertIssued (Except.ok u) (Except.error e2) workspace_id uid
              params tx =
              [TxWrite.blobWrite uid workspace_id params.object_id] := by
            simp [upsertIssued, upsert_collab_with_transaction,
              insert_into_af_collab, upsert_collab_embeddings, hpe, hw,
              List.drop_left]
          refine ⟨Or.inr (Or.inl hiss), fun hnone => Option.noConfusion hnone,
            fun hok => ?_⟩
          simp [upsert_collab_with_transaction, insert_into_af_collab,
            upsert_collab_embeddings, hpe, hw] at hok
        · have hiss : upsertIssued (Except.ok u) (Except.ok u2) workspace_id uid
              params tx =
              [TxWrite.blobWrite uid workspace_id params.object_id,
                TxWrite.embedWrite wid em.tokens_consumed] := by
            simp only [upsertIssued, upsert_collab_with_transaction,
              insert_into_af_collab, upsert_collab_embeddings, hpe, hw]
            rw [List.append_assoc, List.drop_left]
            rfl
          refine ⟨Or.inr (Or.inr ⟨wid, em, rfl, rfl, hiss⟩),
            fun hnone => Option.noConfusion hnone, fun _ => ?_⟩
          · rw [hiss]
            constructor
            · intro _; simp [hpe]
            · intro _; exact ⟨wid, em.tokens_consumed, by simp⟩

/-- C4 amended witness. -/
theorem upsert_embed_write_shape_witness :
    (upsert_collab_with_transaction (Except.ok ()) (Except.ok ())
        "00000000000000000000000000000000" 7
        ⟨"obj5", CollabType.Document, [1], some ⟨2, []⟩⟩ []).1 = Except.ok ()
    ∧ ((∃ wid t, TxWrite.embedWrite wid t ∈
          upsertIssued (Except.ok ()) (Except.ok ())
            "00000000000000000000000000000000" 7
            ⟨"obj5", CollabType.Document, [1], some ⟨2, []⟩⟩ [])
        ↔ (⟨"obj5", CollabType.Document, [1],
            some ⟨2, []⟩⟩ : CollabParams).embeddings.isSome) :=
  ⟨rfl,
    (upsert_embed_write_shape (Except.ok ()) (Except.ok ())
      "00000000000000000000000000000000" 7
      ⟨"obj5", CollabType.Document, [1], some ⟨2, []⟩⟩ []).2.2 rfl⟩

end DiskCache

namespace Storage

/-- C10: the path-to-tag mapping is not injective — "a/b" and "a_b" are
distinct paths with the same release tag, so the tag-based operations on
one path hit the release of the other. -/
theorem tag_name_collision :
    "a/b".toList ≠ "a_b".toList
    ∧ tag_name "a/b".toList = tag_name "a_b".toList
    ∧ download_file (upload_file [] "a_b".toList [1, 2]) "a/b".toList =
        some [1, 2]
    ∧ delete_file (upload_file [] "a_b".toList [1, 2]) "a/b".toList = [] := by
  decide

end Storage
